import Mathlib

/-!
Verification of the ceremony-dispatch core of the passport WebAuthn strategy
(src/lib/strategy.ts, method `Strategy.authenticate`).

Shallow embedding conventions:

* JavaScript truthiness is modelled explicitly where the source relies on it:
  an optional object (`user`, an `Error` value, a `UserWithAuthenticator`) is
  truthy exactly when present (`Option.isSome`), because objects are always
  truthy in JS; an optional string (`userHandle`) is truthy when present AND
  non-empty, because the empty string is falsy.
* The developer-supplied functions (`registrationFn`, `authenticationFn`) are
  dispatched in the source on their declared parameter count
  (`fn.length < 4`).  The embedding represents this choice as the two
  constructors of `DevReg` / `DevAuth`: `direct` models an arity-below-4
  promise/return-style function (it resolves to an optional result or
  throws, modelled with `Except`), `withCallback` models an arity-4-or-more
  function that invokes its completion callback exactly once with a triple
  `(err?, result?, info?)` (the single-callback-invocation discipline the
  surrounding framework assumes).
* The external verifier library is outside this repository; it is modelled
  per its narrow call contract: registration verification yields an optional
  `RegistrationInfo` or throws, authentication verification yields a boolean
  or throws.  Both receive the expected challenge.
* A call to the framework methods `this.success` / `this.fail` / `this.error`
  is recorded as a `Signal` appended to the trace.  An exception that escapes
  `authenticate` itself (the source awaits `JSON.parse` results and the
  registration verifier outside any try/catch) is recorded in `uncaught`:
  the async method rejects and no framework signal is emitted.
* The trace also counts how often each external collaborator was invoked and
  records the values passed to `console.error` (the `logged` list), so that
  never-invoked / must-log properties are expressible.
-/

/-- An application user; the strategy only requires a stable string id.  The
extra `tag` field stands for arbitrary further user data, so that distinct
users may share nothing but their shape. -/
structure User where
  id : String
  tag : Nat
deriving DecidableEq, Repr

/-- An opaque thrown/callback error value.  JS `Error` objects are always
truthy, which the model reflects by treating every `Err` as truthy. -/
structure Err where
  code : Nat
deriving DecidableEq, Repr

/-- The loosely typed `info` payload handed to `fail` / `success`.  It is
either one of the core's own `\x7b message: ... \x7d` objects or an opaque
developer-supplied value. -/
inductive Info where
  | msg (message : String)
  | dev (v : Nat)
deriving DecidableEq, Repr

/-- A terminal framework signal: a call to `this.success`, `this.fail` or
`this.error`.  `success(user)` with no second argument is `success u none`;
`fail(info)` with no status is `fail i none`. -/
inductive Signal where
  | success (user : User) (info : Option Info)
  | fail (info : Option Info) (status : Option Nat)
  | error (err : Err)
deriving DecidableEq, Repr

/-- Verified attestation facts returned by the external registration
verifier (interface `RegistrationInfo` in the source). -/
structure RegistrationInfo where
  counter : Nat
  credentialID : List Nat
  credentialPublicKey : List Nat
  credentialType : String
  userVerified : Bool
  credentialDeviceType : String
  credentialBackedUp : Bool
deriving DecidableEq, Repr

/-- The stored credential record for one registered device. -/
structure AuthenticatorDevice where
  credentialID : List Nat
  credentialPublicKey : List Nat
  counter : Nat
deriving DecidableEq, Repr

/-- Pairing of an application user with the credential record being
asserted (type `UserWithAuthenticator` in the source). -/
structure UserWithAuthenticator where
  user : User
  authenticator : AuthenticatorDevice
deriving DecidableEq, Repr

/-- Ceremony context extracted from session storage (interface
`SessionData`). -/
structure SessionData where
  challenge : String
  user : Option User
deriving DecidableEq, Repr

/-- The decoded client-data JSON; only its `type` field is inspected.
`ctype = none` models a JSON object without a `type` field (in JS the access
yields `undefined`). -/
structure ClientData where
  ctype : Option String
deriving DecidableEq, Repr

/-- The incoming request, after applying the session extractor:
`clientData` is the result of base64url-decoding and `JSON.parse`-ing
`body.response.clientDataJSON` (`Except.error` models a parse exception),
`credentialId` is the top-level `body.id`, `userHandle` is
`body.response.userHandle` (`some ""` is a present-but-empty, hence falsy,
handle). -/
structure Request where
  clientData : Except Err ClientData
  credentialId : String
  userHandle : Option String
  session : SessionData

/-- Developer registration function, split by declared arity as the source
dispatches on `registrationFn.length < 4`.  `direct` (arity below 4) maps
the session user and registration info to a thrown error or an optional new
user; `withCallback` (arity 4 or more) maps them to the single triple
`(err?, user?, info?)` it passes to its completion callback. -/
inductive DevReg where
  | direct (f : User → RegistrationInfo → Except Err (Option User))
  | withCallback (f : User → RegistrationInfo → Option Err × Option User × Option Info)

/-- Developer authentication lookup function, split by declared arity as the
source dispatches on `authenticationFn.length < 4`.  Arguments are the
asserted credential id and the resolved user handle. -/
inductive DevAuth where
  | direct (f : String → String → Except Err (Option UserWithAuthenticator))
  | withCallback (f : String → String →
      Option Err × Option UserWithAuthenticator × Option Info)

/-- The strategy environment: the two developer functions and the external
verifier behaviours (each receives the expected challenge). -/
structure Env where
  regFn : DevReg
  authFn : DevAuth
  regVerifier : String → Except Err (Option RegistrationInfo)
  authVerifier : AuthenticatorDevice → String → Except Err Bool

/-- Everything observable about one `authenticate` invocation: the framework
signals emitted in order, an exception escaping `authenticate` itself (the
async method rejecting), invocation counts of the external collaborators,
and the values passed to `console.error`. -/
structure Trace where
  signals : List Signal
  uncaught : Option Err
  regVerifierCalls : Nat
  authVerifierCalls : Nat
  regFnCalls : Nat
  authFnCalls : Nat
  logged : List Err
deriving DecidableEq, Repr

/-- Trace constructor, in field order. -/
def mkTrace (sigs : List Signal) (unc : Option Err) (rv av rf af : Nat)
    (lg : List Err) : Trace :=
  ⟨sigs, unc, rv, av, rf, af, lg⟩

/-- JS truthiness of an optional string: present and non-empty. -/
def strTruthy : Option String → Bool
  | none => false
  | some s => s != ""

/-- JS string coercion of an optional string, as performed by the `+`
concatenation in the unsupported-type message. -/
def jsShow : Option String → String
  | none => "undefined"
  | some s => s

/-- The guard `user && userHandle && user.id !== userHandle` of the
authentication path (strategy.ts line 196): both values truthy and the ids
different. -/
def userHandleMismatch : Option User → Option String → Bool
  | some u, some s => (s != "") && (u.id != s)
  | _, _ => false

/-- The identity handed to the lookup function: `user?.id ?? userHandle`
(strategy.ts line 250).  The `none, none` case is unreachable in
`authenticate` because the branch is guarded by the handle presence check;
it is mapped to the empty string. -/
def resolvedHandle : Option User → Option String → String
  | some u, _ => u.id
  | none, some s => s
  | none, none => ""

/-- The inner function `concludeRegistration` (strategy.ts lines 152 to
156): an error argument becomes `error`, a missing user becomes `fail(info)`
with no status hint, otherwise `success(user, info)`. -/
def concludeRegistration :
    Option Err × Option User × Option Info → Signal
  | (some e, _, _) => .error e
  | (none, none, info) => .fail info none
  | (none, some u, info) => .success u info

/-- The inner function `concludeAuthentication` (strategy.ts lines 219 to
242), given the authentication verifier already applied to the challenge.
Returns the emitted signal, the number of verifier invocations, and the
`console.error` log entries. -/
def concludeAuthentication (verify : AuthenticatorDevice → Except Err Bool) :
    Option Err × Option UserWithAuthenticator × Option Info →
      Signal × Nat × List Err
  | (some e, _, _) => (.error e, 0, [])
  | (none, none, info) => (.fail info none, 0, [])
  | (none, some uwa, info) =>
    match verify uwa.authenticator with
    | .error e => (.error e, 1, [e])
    | .ok false =>
      (.fail (some (.msg "Authenticator verification failed")) (some 400), 1, [])
    | .ok true => (.success uwa.user info, 1, [])

/-- The method `Strategy.authenticate` (strategy.ts lines 123 to 285) as a
trace function.  Each leaf records the single framework call the source
makes there; the two awaits outside any try/catch (the `JSON.parse` of the
client data at line 128 and the registration verifier call at line 142) put
their exception into `uncaught` instead of emitting a signal. -/
def authenticate (env : Env) (req : Request) : Trace :=
  match req.clientData with
  | .error e => mkTrace [] (some e) 0 0 0 0 []
  | .ok cd =>
    if cd.ctype = some "webauthn.create" then
      match req.session.user with
      | none =>
        mkTrace [.fail (some (.msg "User not in session")) (some 404)]
          none 0 0 0 0 []
      | some user =>
        match env.regVerifier req.session.challenge with
        | .error e => mkTrace [] (some e) 1 0 0 0 []
        | .ok none =>
          mkTrace [.fail (some (.msg "Registration failed.")) (some 500)]
            none 1 0 0 0 []
        | .ok (some ri) =>
          match env.regFn with
          | .direct f =>
            match f user ri with
            | .error e => mkTrace [.error e] none 1 0 1 0 []
            | .ok none =>
              mkTrace [.fail (some (.msg "User not found")) (some 404)]
                none 1 0 1 0 []
            | .ok (some newUser) =>
              mkTrace [.success newUser none] none 1 0 1 0 []
          | .withCallback f =>
            mkTrace [concludeRegistration (f user ri)] none 1 0 1 0 []
    else if cd.ctype = some "webauthn.get" then
      if userHandleMismatch req.session.user req.userHandle then
        mkTrace
          [.fail (some (.msg "User handle does not match session")) (some 400)]
          none 0 0 0 0 []
      else if !strTruthy req.userHandle then
        mkTrace [.fail (some (.msg "User handle not present")) (some 400)]
          none 0 0 0 0 []
      else
        let handle := resolvedHandle req.session.user req.userHandle
        match env.authFn with
        | .direct f =>
          match f req.credentialId handle with
          | .error e => mkTrace [.error e] none 0 0 0 1 []
          | .ok none =>
            mkTrace [.fail (some (.msg "Invelid credential")) (some 400)]
              none 0 0 0 1 []
          | .ok (some uwa) =>
            match env.authVerifier uwa.authenticator req.session.challenge with
            | .error e => mkTrace [.error e] none 0 1 0 1 []
            | .ok false =>
              mkTrace
                [.fail (some (.msg "Authenticator verification failed"))
                  (some 400)]
                none 0 1 0 1 []
            | .ok true => mkTrace [.success uwa.user none] none 0 1 0 1 []
        | .withCallback f =>
          match concludeAuthentication
              (fun a => env.authVerifier a req.session.challenge)
              (f req.credentialId handle) with
          | (sig, av, lg) => mkTrace [sig] none 0 av 0 1 lg
    else
      mkTrace
        [.fail (some (.msg ("Unsupported response type: " ++ jsShow cd.ctype)))
          (some 400)]
        none 0 0 0 0 []

/-! ### Concrete fixtures used by witnesses and counterexamples -/

/-- A sample registration info record. -/
def riSample : RegistrationInfo :=
  ⟨7, [1, 2], [3, 4], "public-key", true, "singleDevice", false⟩

/-- A sample stored credential record. -/
def devSample : AuthenticatorDevice := ⟨[1, 2], [3, 4], 9⟩

/-- A neutral environment: both developer functions promise-style resolving
to nothing, both verifiers returning a negative result. -/
def envPromiseNone : Env :=
  ⟨.direct fun _ _ => .ok none, .direct fun _ _ => .ok none,
   fun _ => .ok none, fun _ _ => .ok false⟩

/-! ### Claims -/

/-- Claim C9: a registration ceremony (client-data type webauthn.create)
whose session context carries no user fails with message User not in
session and hint 404, whatever the rest of the payload is, and neither the
external verifier nor the registration function is invoked (all call
counters are zero in the resulting trace). -/
theorem c9_registration_requires_session_user (env : Env) (cid : String)
    (uh : Option String) (ch : String) :
    authenticate env ⟨.ok ⟨some "webauthn.create"⟩, cid, uh, ⟨ch, none⟩⟩ =
      mkTrace [.fail (some (.msg "User not in session")) (some 404)]
        none 0 0 0 0 [] := by
  rfl

/-- Claim C10: an assertion payload whose userHandle is the empty string is
falsy in the source guard, so the session-mismatch comparison is skipped
and the absent-handle branch fails with message User handle not present and
hint 400; the lookup function is never invoked.  The session user is
universally quantified, so this covers in particular a session user whose
id differs from the empty handle. -/
theorem c10_empty_user_handle_falsy (env : Env) (cid : String) (ch : String)
    (usr : Option User) :
    authenticate env ⟨.ok ⟨some "webauthn.get"⟩, cid, some "", ⟨ch, usr⟩⟩ =
      mkTrace [.fail (some (.msg "User handle not present")) (some 400)]
        none 0 0 0 0 [] := by
  cases usr <;> rfl

/-- Claim C6 counterexample: with a client data payload that does not parse
(modelled as a parse exception with code 3), `authenticate` emits NO
terminal signal at all: the signal list is empty and the exception escapes
uncaught (the source performs `JSON.parse` at line 128 outside any
try/catch and never reaches `this.error`).  This refutes the claim that the
condition is mapped to the fatal error signal. -/
theorem c6_malformed_counterexample :
    (authenticate envPromiseNone
        ⟨.error ⟨3⟩, "cred", some "u1", ⟨"ch", none⟩⟩).signals = [] ∧
    (authenticate envPromiseNone
        ⟨.error ⟨3⟩, "cred", some "u1", ⟨"ch", none⟩⟩).uncaught = some ⟨3⟩ :=
  ⟨rfl, rfl⟩

/-- Claim C6 (amended): a payload whose clientDataJSON fails to parse makes
the parse exception escape `authenticate` uncaught (the async method
rejects); no terminal signal, in particular no error signal, is emitted
and no collaborator is invoked. -/
theorem c6_malformed_payload_uncaught (env : Env) (e : Err) (cid : String)
    (uh : Option String) (sess : SessionData) :
    authenticate env ⟨.error e, cid, uh, sess⟩ =
      mkTrace [] (some e) 0 0 0 0 [] := by
  rfl

/-- Claim C8: a payload whose decoded client-data type string is neither
webauthn.create nor webauthn.get fails with hint 400 and a message
containing the offending type string, and no collaborator (verifier or
developer function) is invoked: all call counters of the trace are zero. -/
theorem c8_unsupported_type (env : Env) (cid : String) (uh : Option String)
    (sess : SessionData) (t : String) (h1 : t ≠ "webauthn.create")
    (h2 : t ≠ "webauthn.get") :
    authenticate env ⟨.ok ⟨some t⟩, cid, uh, sess⟩ =
      mkTrace
        [.fail (some (.msg ("Unsupported response type: " ++ t))) (some 400)]
        none 0 0 0 0 []
    ∧ ∃ pre post, "Unsupported response type: " ++ t = pre ++ t ++ post := by
  constructor
  · unfold authenticate
    simp [h1, h2, jsShow]
  · exact ⟨"Unsupported response type: ", "", by simp⟩

/-- Claim C8 witness at the concrete unsupported type string payment.get. -/
theorem c8_unsupported_type_witness :
    authenticate envPromiseNone
        ⟨.ok ⟨some "payment.get"⟩, "cred", none, ⟨"ch", none⟩⟩ =
      mkTrace
        [.fail (some (.msg ("Unsupported response type: " ++ "payment.get")))
          (some 400)]
        none 0 0 0 0 []
    ∧ ∃ pre post,
        "Unsupported response type: " ++ "payment.get" =
          pre ++ "payment.get" ++ post :=
  c8_unsupported_type envPromiseNone "cred" none ⟨"ch", none⟩ "payment.get"
    (by decide) (by decide)

/-- Claim C3: in an authentication ceremony whose session context carries a
user and whose assertion carries a (truthy, that is non-empty) userHandle
different from the session user id, the result is the failure with message
User handle does not match session and hint 400, and the lookup function is
never invoked (its call counter is zero).  The non-emptiness hypothesis
matches the source guard, which tests the handle for JS truthiness; the
empty-handle boundary is the subject of the C10 theorem. -/
theorem c3_user_handle_mismatch (env : Env) (cid : String) (ch : String)
    (u : User) (s : String) (hs : s ≠ "") (hne : u.id ≠ s) :
    authenticate env ⟨.ok ⟨some "webauthn.get"⟩, cid, some s, ⟨ch, some u⟩⟩ =
      mkTrace
        [.fail (some (.msg "User handle does not match session")) (some 400)]
        none 0 0 0 0 [] := by
  unfold authenticate
  simp [userHandleMismatch, hs, hne]

/-- Claim C3 witness: session user u1, asserted handle u2. -/
theorem c3_user_handle_mismatch_witness :
    authenticate envPromiseNone
        ⟨.ok ⟨some "webauthn.get"⟩, "cred", some "u2", ⟨"ch", some ⟨"u1", 0⟩⟩⟩ =
      mkTrace
        [.fail (some (.msg "User handle does not match session")) (some 400)]
        none 0 0 0 0 [] :=
  c3_user_handle_mismatch envPromiseNone "cred" "ch" ⟨"u1", 0⟩ "u2"
    (by decide) (by decide)

/-- A sample user/authenticator pairing resolved by the lookup function. -/
def uwaSample : UserWithAuthenticator := ⟨⟨"u2", 0⟩, devSample⟩

/-- Claim C7 evaluation: with a promise-style lookup resolving to no
pairing, the code emits the failure with hint 400 but with the misspelled
message Invelid credential (strategy.ts line 254), not the Invalid
credential message the specification states. -/
theorem c7_invelid_message_eval :
    authenticate envPromiseNone
        ⟨.ok ⟨some "webauthn.get"⟩, "cred", some "u2", ⟨"ch", none⟩⟩ =
      mkTrace [.fail (some (.msg "Invelid credential")) (some 400)]
        none 0 0 0 1 []
    ∧ "Invelid credential" ≠ "Invalid credential" :=
  ⟨rfl, by decide⟩

/-- Claim C4 counterexample: promise-style lookup resolves a pairing, the
verifier throws error 5; the fatal error signal is emitted but the logged
list is empty, refuting the part of the claim that says the thrown value is
logged in the promise-style path as well (the source only calls
console.error inside concludeAuthentication, the callback-style path). -/
theorem c4_promise_path_not_logged_counterexample :
    (authenticate
        ⟨.direct fun _ _ => .ok none, .direct fun _ _ => .ok (some uwaSample),
         fun _ => .ok none, fun _ _ => .error ⟨5⟩⟩
        ⟨.ok ⟨some "webauthn.get"⟩, "cred", some "u2", ⟨"ch", none⟩⟩).signals =
      [.error ⟨5⟩]
    ∧ (authenticate
        ⟨.direct fun _ _ => .ok none, .direct fun _ _ => .ok (some uwaSample),
         fun _ => .ok none, fun _ _ => .error ⟨5⟩⟩
        ⟨.ok ⟨some "webauthn.get"⟩, "cred", some "u2", ⟨"ch", none⟩⟩).logged =
      [] :=
  ⟨rfl, rfl⟩

/-- Claim C4 (amended): when a pairing has been resolved and the external
verifier throws, both lookup styles emit the fatal error signal wrapping
the thrown value, but the thrown value is logged (passed to console.error)
only in the callback-style path; the promise-style path logs nothing. -/
theorem c4_verifier_throw_error_signal (env : Env) (cid : String)
    (ch : String) (usr : Option User) (uh : Option String)
    (uwa : UserWithAuthenticator) (e : Err)
    (hmm : userHandleMismatch usr uh = false)
    (hth : strTruthy uh = true)
    (hv : env.authVerifier uwa.authenticator ch = .error e) :
    (∀ f, env.authFn = .direct f →
      f cid (resolvedHandle usr uh) = .ok (some uwa) →
      authenticate env ⟨.ok ⟨some "webauthn.get"⟩, cid, uh, ⟨ch, usr⟩⟩ =
        mkTrace [.error e] none 0 1 0 1 [])
    ∧ (∀ f i, env.authFn = .withCallback f →
      f cid (resolvedHandle usr uh) = (none, some uwa, i) →
      authenticate env ⟨.ok ⟨some "webauthn.get"⟩, cid, uh, ⟨ch, usr⟩⟩ =
        mkTrace [.error e] none 0 1 0 1 [e]) := by
  constructor
  · intro f hf hres
    unfold authenticate
    simp [hmm, hth, hf, hres, hv]
  · intro f i hf hres
    unfold authenticate
    simp [hmm, hth, hf, hres, hv, concludeAuthentication]

/-- Claim C4 witness: callback-style lookup resolving the sample pairing,
verifier throwing error 5; the error is emitted and logged. -/
theorem c4_verifier_throw_error_signal_witness :
    authenticate
        ⟨.direct fun _ _ => .ok none,
         .withCallback fun _ _ => (none, some uwaSample, none),
         fun _ => .ok none, fun _ _ => .error ⟨5⟩⟩
        ⟨.ok ⟨some "webauthn.get"⟩, "cred", some "u2", ⟨"ch", none⟩⟩ =
      mkTrace [.error ⟨5⟩] none 0 1 0 1 [⟨5⟩] :=
  (c4_verifier_throw_error_signal
      ⟨.direct fun _ _ => .ok none,
       .withCallback fun _ _ => (none, some uwaSample, none),
       fun _ => .ok none, fun _ _ => .error ⟨5⟩⟩
      "cred" "ch" none (some "u2") uwaSample ⟨5⟩ rfl rfl rfl).2
    (fun _ _ => (none, some uwaSample, none)) none rfl rfl

/-- Claim C1: after a successful registration verification (registration
info present), the developer registration function is dispatched on its
declared arity.  Below 4 (the direct constructor): a thrown error becomes
the fatal error signal, an absent resolved user becomes the failure User
not found with hint 404, and otherwise success carries exactly the returned
user (and no info).  Arity 4 or more (the withCallback constructor): a
truthy error argument becomes the fatal error signal, a missing user
becomes a failure carrying the callback info and no status hint, and
otherwise success carries both user and info.  Every case records exactly
one invocation of the registration function. -/
theorem c1_registration_dispatch (env : Env) (cid : String)
    (uh : Option String) (ch : String) (u : User) (ri : RegistrationInfo)
    (hv : env.regVerifier ch = .ok (some ri)) :
    (∀ f, env.regFn = .direct f →
      (∀ e, f u ri = .error e →
        authenticate env ⟨.ok ⟨some "webauthn.create"⟩, cid, uh, ⟨ch, some u⟩⟩ =
          mkTrace [.error e] none 1 0 1 0 []) ∧
      (f u ri = .ok none →
        authenticate env ⟨.ok ⟨some "webauthn.create"⟩, cid, uh, ⟨ch, some u⟩⟩ =
          mkTrace [.fail (some (.msg "User not found")) (some 404)]
            none 1 0 1 0 []) ∧
      (∀ nu, f u ri = .ok (some nu) →
        authenticate env ⟨.ok ⟨some "webauthn.create"⟩, cid, uh, ⟨ch, some u⟩⟩ =
          mkTrace [.success nu none] none 1 0 1 0 []))
    ∧ (∀ g, env.regFn = .withCallback g →
      (∀ e ou i, g u ri = (some e, ou, i) →
        authenticate env ⟨.ok ⟨some "webauthn.create"⟩, cid, uh, ⟨ch, some u⟩⟩ =
          mkTrace [.error e] none 1 0 1 0 []) ∧
      (∀ i, g u ri = (none, none, i) →
        authenticate env ⟨.ok ⟨some "webauthn.create"⟩, cid, uh, ⟨ch, some u⟩⟩ =
          mkTrace [.fail i none] none 1 0 1 0 []) ∧
      (∀ nu i, g u ri = (none, some nu, i) →
        authenticate env ⟨.ok ⟨some "webauthn.create"⟩, cid, uh, ⟨ch, some u⟩⟩ =
          mkTrace [.success nu i] none 1 0 1 0 [])) := by
  constructor
  · intro f hf
    refine ⟨fun e he => ?_, fun hn => ?_, fun nu hnu => ?_⟩ <;>
      (unfold authenticate; simp [hv, hf])
    · simp [he]
    · simp [hn]
    · simp [hnu]
  · intro g hg
    refine ⟨fun e ou i hres => ?_, fun i hres => ?_, fun nu i hres => ?_⟩ <;>
      (unfold authenticate; simp [hv, hg, hres, concludeRegistration])

/-- Claim C1 witness: promise-style registration function returning the
user u9; success carries exactly that user. -/
theorem c1_registration_dispatch_witness :
    authenticate
        ⟨.direct fun _ _ => .ok (some ⟨"u9", 1⟩),
         .direct fun _ _ => .ok none,
         fun _ => .ok (some riSample), fun _ _ => .ok false⟩
        ⟨.ok ⟨some "webauthn.create"⟩, "cred", none, ⟨"ch", some ⟨"u1", 0⟩⟩⟩ =
      mkTrace [.success ⟨"u9", 1⟩ none] none 1 0 1 0 [] :=
  ((c1_registration_dispatch
      ⟨.direct fun _ _ => .ok (some ⟨"u9", 1⟩),
       .direct fun _ _ => .ok none,
       fun _ => .ok (some riSample), fun _ _ => .ok false⟩
      "cred" none "ch" ⟨"u1", 0⟩ riSample rfl).1
    (fun _ _ => .ok (some ⟨"u9", 1⟩)) rfl).2.2 ⟨"u9", 1⟩ rfl

/-- Claim C2 counterexample: a registration ceremony (type webauthn.create,
session user present) in which the external registration verifier throws
error 5.  The source awaits that verifier call outside any try/catch
(strategy.ts line 142), so the registration branch terminates with ZERO
terminal signals: the exception escapes uncaught.  This refutes the claim
that every branch terminates in exactly one terminal signal. -/
theorem c2_registration_verifier_throw_counterexample :
    (authenticate
        ⟨.direct fun _ _ => .ok none, .direct fun _ _ => .ok none,
         fun _ => .error ⟨5⟩, fun _ _ => .ok false⟩
        ⟨.ok ⟨some "webauthn.create"⟩, "cred", none,
          ⟨"ch", some ⟨"u1", 0⟩⟩⟩).signals = []
    ∧ (authenticate
        ⟨.direct fun _ _ => .ok none, .direct fun _ _ => .ok none,
         fun _ => .error ⟨5⟩, fun _ _ => .ok false⟩
        ⟨.ok ⟨some "webauthn.create"⟩, "cred", none,
          ⟨"ch", some ⟨"u1", 0⟩⟩⟩).uncaught = some ⟨5⟩ :=
  ⟨rfl, rfl⟩

/-- Claim C2 (amended): every invocation of authenticate emits at most one
terminal signal; it emits exactly one whenever no exception escapes the
method, and zero when one does (the only escapes are a client-data parse
failure and a registration-verifier throw, both recorded in uncaught). -/
theorem c2_terminal_signal_discipline (env : Env) (req : Request) :
    (authenticate env req).signals.length ≤ 1
    ∧ ((authenticate env req).uncaught = none →
        (authenticate env req).signals.length = 1)
    ∧ ((authenticate env req).uncaught ≠ none →
        (authenticate env req).signals = []) := by
  unfold authenticate
  repeat' split
  all_goals try simp [mkTrace]
  all_goals repeat' split
  all_goals simp [mkTrace]

/-- Claim C2 witness: a concrete invocation with no escaping exception
emits exactly one terminal signal. -/
theorem c2_terminal_signal_discipline_witness :
    (authenticate envPromiseNone
        ⟨.ok ⟨some "webauthn.create"⟩, "cred", none,
          ⟨"ch", some ⟨"u1", 0⟩⟩⟩).signals.length = 1 :=
  (c2_terminal_signal_discipline envPromiseNone
      ⟨.ok ⟨some "webauthn.create"⟩, "cred", none,
        ⟨"ch", some ⟨"u1", 0⟩⟩⟩).2.1 rfl

/-- Claim C5 counterexample: a callback-style registration function that
completes with no error and no user but an opaque developer info value
produces the recoverable failure signal carrying that opaque info and NO
status hint (the source calls self.fail(info) with a single argument at
line 154).  This failure carries neither a human-readable message nor a
400/404/500 hint, refuting the claim. -/
theorem c5_callback_failure_counterexample :
    (authenticate
        ⟨.withCallback fun _ _ => (none, none, some (.dev 7)),
         .direct fun _ _ => .ok none,
         fun _ => .ok (some riSample), fun _ _ => .ok false⟩
        ⟨.ok ⟨some "webauthn.create"⟩, "cred", none,
          ⟨"ch", some ⟨"u1", 0⟩⟩⟩).signals =
      [.fail (some (.dev 7)) none]
    ∧ (none : Option Nat) ≠ some 400
    ∧ (none : Option Nat) ≠ some 404
    ∧ (none : Option Nat) ≠ some 500 :=
  ⟨rfl, by decide, by decide, by decide⟩

/-- Claim C5 (amended): every recoverable failure emitted by the core
either carries one of the core's own message objects together with a
status hint of 400, 404 or 500, or is one of the failures produced when a
callback-style developer function completes without an error and without a
user, in which case it carries exactly the developer-supplied info value
and no status hint. -/
theorem c5_failure_payloads (env : Env) (req : Request) (i : Option Info)
    (st : Option Nat)
    (hmem : Signal.fail i st ∈ (authenticate env req).signals) :
    (∃ m, i = some (Info.msg m)
      ∧ (st = some 400 ∨ st = some 404 ∨ st = some 500))
    ∨ (st = none ∧
        ((∃ g u ri, env.regFn = DevReg.withCallback g ∧ g u ri = (none, none, i))
         ∨ (∃ g c h,
              env.authFn = DevAuth.withCallback g ∧ g c h = (none, none, i)))) := by
  unfold authenticate concludeRegistration concludeAuthentication at hmem
  repeat' split at hmem
  all_goals try simp [mkTrace] at hmem
  all_goals repeat' split at hmem
  all_goals try simp [mkTrace] at hmem
  all_goals try (obtain ⟨hi, hst⟩ := hmem; subst hi; subst hst)
  all_goals try (exact Or.inl ⟨_, rfl, by simp⟩)
  · rename_i u h3 x2 ri hv d f hfn trip hres
    exact Or.inr ⟨rfl, Or.inl ⟨f, u, ri, hfn, hres⟩⟩
  · rename_i f hfn trip hres
    exact Or.inr ⟨rfl, Or.inr ⟨f, req.credentialId,
      resolvedHandle req.session.user req.userHandle, hfn, hres⟩⟩

/-- Claim C5 witness: the User not in session failure of a sessionless
registration attempt satisfies the characterization through its first
disjunct. -/
theorem c5_failure_payloads_witness :
    (∃ m, (some (Info.msg "User not in session") : Option Info) =
        some (Info.msg m)
      ∧ ((some 404 : Option Nat) = some 400
         ∨ (some 404 : Option Nat) = some 404
         ∨ (some 404 : Option Nat) = some 500))
    ∨ ((some 404 : Option Nat) = none ∧
        ((∃ g u ri, envPromiseNone.regFn = DevReg.withCallback g
            ∧ g u ri = (none, none, some (Info.msg "User not in session")))
         ∨ (∃ g c h, envPromiseNone.authFn = DevAuth.withCallback g
            ∧ g c h = (none, none, some (Info.msg "User not in session"))))) :=
  c5_failure_payloads envPromiseNone
    ⟨.ok ⟨some "webauthn.create"⟩, "cred", none, ⟨"ch", none⟩⟩
    (some (.msg "User not in session")) (some 404) (by decide)
